import Mathlib

/-!
Verification of the `SafeEval` expression evaluator of
`src/calculator.py` (class `SafeEval`, lines 7-47).

The evaluator parses a user string with Python's `ast.parse(text, mode="eval")`,
checks every node of the resulting tree against a whitelist of node classes
(`SafeEval.ALLOWED`), and walks the tree computing `float` values
(`SafeEval._eval`), with a dedicated zero-divisor guard for true division.

The embedding below models:
  * the Python abstract syntax reachable from arithmetic input
    (`Constant`, `Name`, `UnaryOp`, `BinOp`, `Call`, `Attribute`, `Subscript`)
    together with the operator classes the source mentions;
  * Python's parser (`ast.parse` in `eval` mode) on the arithmetic fragment:
    numeric literals, the keyword constants `True`/`False`/`None`, identifiers,
    unary `+`/`-`, the binary operators `+ - * / // % ** ^`, parenthesised
    sub-expressions, call/attribute/subscript trailers and whitespace,
    with Python's precedence and associativity.  Constructs outside this
    fragment (strings, tuples, comparisons, lambdas, ...) are outside the
    model and are rejected at parse time.
  * Python exceptions as a pair of an exception class and a message string:
    a caller distinguishes exceptions by class (`except ValueError`,
    `except ZeroDivisionError`); the message is payload text.
  * numeric values as exact rationals `ℚ`.  Python computes with IEEE-754
    doubles; on every input appearing in the claims the double computation
    is exact, and floating-point-only behaviour (overflow to `inf`, `nan`)
    is outside this model.
-/

/-- Exception classes observable by a Python caller of `SafeEval.eval`.
`notModelled` marks the single modelling boundary: `a ** b` with a
non-integer exponent, whose Python result (an irrational float, or a
complex number for a negative base) lies outside the rational value
domain of this embedding; no claim depends on that arm. -/
inductive ExcClass
  | valueError
  | zeroDivisionError
  | notModelled
deriving DecidableEq

/-- A raised Python exception: its class and its message.  A caller
distinguishes failures by `cls` (via `except` clauses); reading `msg`
is message-text inspection. -/
structure PyExc where
  cls : ExcClass
  msg : String
deriving DecidableEq

/-- Python unary operator classes reachable from the modelled grammar
(`ast.USub`, `ast.UAdd`). -/
inductive PyUOp
  | uSub
  | uAdd
deriving DecidableEq

/-- Python binary operator classes reachable from the modelled grammar.
`bitXor` (`ast.BitXor`, the `^` operator) parses but is outside
`SafeEval.ALLOWED` and `SafeEval.OPS`. -/
inductive PyBOp
  | add
  | sub
  | mult
  | div
  | floorDiv
  | mod
  | pow
  | bitXor
deriving DecidableEq

/-- Values an `ast.Constant` node can carry in the modelled fragment:
`int` and `float` literals and the keyword constants `True`/`False`/`None`.
In Python `bool` is a subclass of `int`. -/
inductive PyConst
  | int (n : ℤ)
  | float (q : ℚ)
  | bool (b : Bool)
  | noneV
deriving DecidableEq

/-- Python expression nodes reachable from the modelled fragment of
`ast.parse(_, mode="eval")` (the `Expression` wrapper is elided: it is
always in `ALLOWED` and its only child is the body). -/
inductive PyExpr
  | constant (c : PyConst)
  | name (id : String)
  | unaryOp (op : PyUOp) (operand : PyExpr)
  | binOp (l : PyExpr) (op : PyBOp) (r : PyExpr)
  | call (func : PyExpr) (args : List PyExpr)
  | attribute (v : PyExpr) (attr : String)
  | subscript (v : PyExpr) (idx : PyExpr)

/-- Tokens of the modelled fragment of Python's tokenizer. -/
inductive Tok
  | num (c : PyConst)
  | ident (s : String)
  | plus
  | minus
  | star
  | slash
  | dstar
  | dslash
  | percent
  | caret
  | lparen
  | rparen
  | lbrack
  | rbrack
  | dot
  | comma
deriving DecidableEq

/-- Numeric value of a list of decimal digit characters. -/
def digitsVal (ds : List Char) : ℕ :=
  ds.foldl (fun a c => 10 * a + (c.toNat - 48)) 0

/-- Split a leading run of decimal digits off a character list. -/
def takeDigits : List Char → List Char × List Char
  | [] => ([], [])
  | c :: cs =>
    if c.isDigit then
      let p := takeDigits cs
      (c :: p.1, p.2)
    else ([], c :: cs)

/-- Split a leading identifier (letters, digits, underscore) off a
character list. -/
def takeIdent : List Char → List Char × List Char
  | [] => ([], [])
  | c :: cs =>
    if c.isAlpha ∨ c.isDigit ∨ c = '_' then
      let p := takeIdent cs
      (c :: p.1, p.2)
    else ([], c :: cs)

/-- One pass of the tokenizer; `fuel` bounds the recursion (each step
consumes at least one character). `Option.none` is a tokenize failure:
a character outside the modelled fragment, which `ast.parse` answers
with `SyntaxError`. -/
def tokLoop : ℕ → List Char → Option (List Tok)
  | 0, _ => Option.none
  | _ + 1, [] => some []
  | fuel + 1, c :: cs =>
    if c = ' ' ∨ c = '\t' then tokLoop fuel cs
    else if c.isDigit then
      let p := takeDigits (c :: cs)
      match p.2 with
      | '.' :: r2 =>
        let f := takeDigits r2
        (tokLoop fuel f.2).map fun ts =>
          Tok.num (.float ((digitsVal p.1 : ℚ) + (digitsVal f.1 : ℚ) / (10 : ℚ) ^ f.1.length)) :: ts
      | r =>
        (tokLoop fuel r).map fun ts => Tok.num (.int (digitsVal p.1)) :: ts
    else if c = '.' then
      match cs with
      | d :: _ =>
        if d.isDigit then
          let f := takeDigits cs
          (tokLoop fuel f.2).map fun ts =>
            Tok.num (.float ((digitsVal f.1 : ℚ) / (10 : ℚ) ^ f.1.length)) :: ts
        else (tokLoop fuel cs).map fun ts => Tok.dot :: ts
      | [] => (tokLoop fuel cs).map fun ts => Tok.dot :: ts
    else if c.isAlpha ∨ c = '_' then
      let p := takeIdent (c :: cs)
      (tokLoop fuel p.2).map fun ts => Tok.ident (String.mk p.1) :: ts
    else if c = '*' then
      match cs with
      | '*' :: r => (tokLoop fuel r).map fun ts => Tok.dstar :: ts
      | r => (tokLoop fuel r).map fun ts => Tok.star :: ts
    else if c = '/' then
      match cs with
      | '/' :: r => (tokLoop fuel r).map fun ts => Tok.dslash :: ts
      | r => (tokLoop fuel r).map fun ts => Tok.slash :: ts
    else if c = '+' then (tokLoop fuel cs).map fun ts => Tok.plus :: ts
    else if c = '-' then (tokLoop fuel cs).map fun ts => Tok.minus :: ts
    else if c = '%' then (tokLoop fuel cs).map fun ts => Tok.percent :: ts
    else if c = '^' then (tokLoop fuel cs).map fun ts => Tok.caret :: ts
    else if c = '(' then (tokLoop fuel cs).map fun ts => Tok.lparen :: ts
    else if c = ')' then (tokLoop fuel cs).map fun ts => Tok.rparen :: ts
    else if c = '[' then (tokLoop fuel cs).map fun ts => Tok.lbrack :: ts
    else if c = ']' then (tokLoop fuel cs).map fun ts => Tok.rbrack :: ts
    else if c = ',' then (tokLoop fuel cs).map fun ts => Tok.comma :: ts
    else Option.none

/-- Tokenize an input string. -/
def tokenize (s : String) : Option (List Tok) :=
  tokLoop (s.length + 1) s.data

/-!
Recursive-descent model of Python's expression grammar on the
modelled fragment, with Python's precedence: `^` (BitXor) below
additive, additive below multiplicative, unary sign below `**`,
`**` right-associative, the others left-associative, and
call/attribute/subscript trailers on atoms.  `fuel` bounds the call
depth.
-/
mutual

def parseExpr (fuel : ℕ) (ts : List Tok) : Option (PyExpr × List Tok) :=
  match fuel with
  | 0 => Option.none
  | f + 1 => parseXor f ts

def parseXor (fuel : ℕ) (ts : List Tok) : Option (PyExpr × List Tok) :=
  match fuel with
  | 0 => Option.none
  | f + 1 =>
    match parseArith f ts with
    | Option.none => Option.none
    | some (e, r) => parseXorTail f e r

def parseXorTail (fuel : ℕ) (e : PyExpr) (ts : List Tok) : Option (PyExpr × List Tok) :=
  match fuel with
  | 0 => Option.none
  | f + 1 =>
    match ts with
    | Tok.caret :: r =>
      match parseArith f r with
      | Option.none => Option.none
      | some (e2, r2) => parseXorTail f (PyExpr.binOp e PyBOp.bitXor e2) r2
    | _ => some (e, ts)

def parseArith (fuel : ℕ) (ts : List Tok) : Option (PyExpr × List Tok) :=
  match fuel with
  | 0 => Option.none
  | f + 1 =>
    match parseTerm f ts with
    | Option.none => Option.none
    | some (e, r) => parseArithTail f e r

def parseArithTail (fuel : ℕ) (e : PyExpr) (ts : List Tok) : Option (PyExpr × List Tok) :=
  match fuel with
  | 0 => Option.none
  | f + 1 =>
    match ts with
    | Tok.plus :: r =>
      match parseTerm f r with
      | Option.none => Option.none
      | some (e2, r2) => parseArithTail f (PyExpr.binOp e PyBOp.add e2) r2
    | Tok.minus :: r =>
      match parseTerm f r with
      | Option.none => Option.none
      | some (e2, r2) => parseArithTail f (PyExpr.binOp e PyBOp.sub e2) r2
    | _ => some (e, ts)

def parseTerm (fuel : ℕ) (ts : List Tok) : Option (PyExpr × List Tok) :=
  match fuel with
  | 0 => Option.none
  | f + 1 =>
    match parseFactor f ts with
    | Option.none => Option.none
    | some (e, r) => parseTermTail f e r

def parseTermTail (fuel : ℕ) (e : PyExpr) (ts : List Tok) : Option (PyExpr × List Tok) :=
  match fuel with
  | 0 => Option.none
  | f + 1 =>
    match ts with
    | Tok.star :: r =>
      match parseFactor f r with
      | Option.none => Option.none
      | some (e2, r2) => parseTermTail f (PyExpr.binOp e PyBOp.mult e2) r2
    | Tok.slash :: r =>
      match parseFactor f r with
      | Option.none => Option.none
      | some (e2, r2) => parseTermTail f (PyExpr.binOp e PyBOp.div e2) r2
    | Tok.dslash :: r =>
      match parseFactor f r with
      | Option.none => Option.none
      | some (e2, r2) => parseTermTail f (PyExpr.binOp e PyBOp.floorDiv e2) r2
    | Tok.percent :: r =>
      match parseFactor f r with
      | Option.none => Option.none
      | some (e2, r2) => parseTermTail f (PyExpr.binOp e PyBOp.mod e2) r2
    | _ => some (e, ts)

def parseFactor (fuel : ℕ) (ts : List Tok) : Option (PyExpr × List Tok) :=
  match fuel with
  | 0 => Option.none
  | f + 1 =>
    match ts with
    | Tok.plus :: r =>
      match parseFactor f r with
      | Option.none => Option.none
      | some (e, r2) => some (PyExpr.unaryOp PyUOp.uAdd e, r2)
    | Tok.minus :: r =>
      match parseFactor f r with
      | Option.none => Option.none
      | some (e, r2) => some (PyExpr.unaryOp PyUOp.uSub e, r2)
    | _ => parsePower f ts

def parsePower (fuel : ℕ) (ts : List Tok) : Option (PyExpr × List Tok) :=
  match fuel with
  | 0 => Option.none
  | f + 1 =>
    match parseAtomTrail f ts with
    | Option.none => Option.none
    | some (e, Tok.dstar :: r) =>
      match parseFactor f r with
      | Option.none => Option.none
      | some (e2, r2) => some (PyExpr.binOp e PyBOp.pow e2, r2)
    | some (e, r) => some (e, r)

def parseAtomTrail (fuel : ℕ) (ts : List Tok) : Option (PyExpr × List Tok) :=
  match fuel with
  | 0 => Option.none
  | f + 1 =>
    match parseAtom f ts with
    | Option.none => Option.none
    | some (e, r) => parseTrailers f e r

def parseTrailers (fuel : ℕ) (e : PyExpr) (ts : List Tok) : Option (PyExpr × List Tok) :=
  match fuel with
  | 0 => Option.none
  | f + 1 =>
    match ts with
    | Tok.lparen :: Tok.rparen :: r => parseTrailers f (PyExpr.call e []) r
    | Tok.lparen :: r =>
      match parseArgs f r with
      | some (args, Tok.rparen :: r2) => parseTrailers f (PyExpr.call e args) r2
      | _ => Option.none
    | Tok.dot :: Tok.ident a :: r => parseTrailers f (PyExpr.attribute e a) r
    | Tok.lbrack :: r =>
      match parseExpr f r with
      | some (i, Tok.rbrack :: r2) => parseTrailers f (PyExpr.subscript e i) r2
      | _ => Option.none
    | _ => some (e, ts)

def parseArgs (fuel : ℕ) (ts : List Tok) : Option (List PyExpr × List Tok) :=
  match fuel with
  | 0 => Option.none
  | f + 1 =>
    match parseExpr f ts with
    | Option.none => Option.none
    | some (a, r) => parseArgsTail f [a] r

def parseArgsTail (fuel : ℕ) (acc : List PyExpr) (ts : List Tok) : Option (List PyExpr × List Tok) :=
  match fuel with
  | 0 => Option.none
  | f + 1 =>
    match ts with
    | Tok.comma :: r =>
      match parseExpr f r with
      | Option.none => Option.none
      | some (a, r2) => parseArgsTail f (acc ++ [a]) r2
    | _ => some (acc, ts)

def parseAtom (fuel : ℕ) (ts : List Tok) : Option (PyExpr × List Tok) :=
  match fuel with
  | 0 => Option.none
  | f + 1 =>
    match ts with
    | Tok.num c :: r => some (PyExpr.constant c, r)
    | Tok.ident s :: r =>
      if s = "True" then some (PyExpr.constant (PyConst.bool true), r)
      else if s = "False" then some (PyExpr.constant (PyConst.bool false), r)
      else if s = "None" then some (PyExpr.constant PyConst.noneV, r)
      else some (PyExpr.name s, r)
    | Tok.lparen :: r =>
      match parseExpr f r with
      | some (e, Tok.rparen :: r2) => some (e, r2)
      | _ => Option.none
    | _ => Option.none

end

/-- Model of `ast.parse(text, mode="eval")` on the modelled fragment:
tokenize, parse a full expression, and require all tokens consumed
(trailing tokens are a `SyntaxError`).  `Option.none` models
`SyntaxError`. -/
def astParse (s : String) : Option PyExpr :=
  match tokenize s with
  | Option.none => Option.none
  | some ts =>
    match parseExpr (10 * (ts.length + 1)) ts with
    | some (e, []) => some e
    | _ => Option.none

namespace SafeEval

/-- Source line 45: the exception raised by the explicit zero-divisor
guard for true division. -/
def divByZeroExc : PyExc :=
  PyExc.mk ExcClass.zeroDivisionError "Division by zero"

/-- Source line 26: a `SyntaxError` from `ast.parse` is re-raised as
`ValueError("Invalid expression")`. -/
def invalidExprExc : PyExc :=
  PyExc.mk ExcClass.valueError "Invalid expression"

/-- Source line 28: the failure of the whitelist check. -/
def disallowedExc : PyExc :=
  PyExc.mk ExcClass.valueError "Disallowed expression"

/-- Membership of an operator class in `SafeEval.ALLOWED` (source lines
8-12): `Add, Sub, Mult, Div, Mod, Pow, FloorDiv` all appear; `BitXor`
does not.  (`Expression, BinOp, UnaryOp, Constant, USub, UAdd` are the
remaining members; they are handled structurally in `_ok`.) -/
def ALLOWED_bop : PyBOp → Bool
  | PyBOp.bitXor => false
  | _ => true

/-- `SafeEval.OPS` (source lines 13-21): the operator dispatch table.
Each entry models the Python lambda on float operands, including the
`ZeroDivisionError`s Python arithmetic itself raises (`a // b` and
`a % b` with `b == 0`, and `0.0 ** negative`).  `a ** b` with a
non-integer exponent is the modelling boundary (see `ExcClass`).
`BitXor` has no entry (`op in self.OPS` is false). -/
def OPS : PyBOp → Option (ℚ → ℚ → Except PyExc ℚ)
  | PyBOp.add => some fun a b => Except.ok (a + b)
  | PyBOp.sub => some fun a b => Except.ok (a - b)
  | PyBOp.mult => some fun a b => Except.ok (a * b)
  | PyBOp.div => some fun a b => Except.ok (a / b)
  | PyBOp.floorDiv => some fun a b =>
      if b = 0 then Except.error (PyExc.mk ExcClass.zeroDivisionError "float floor division by zero")
      else Except.ok ((Rat.floor (a / b) : ℤ) : ℚ)
  | PyBOp.mod => some fun a b =>
      if b = 0 then Except.error (PyExc.mk ExcClass.zeroDivisionError "float modulo")
      else Except.ok (a - b * ((Rat.floor (a / b) : ℤ) : ℚ))
  | PyBOp.pow => some fun a b =>
      if b.den = 1 then
        (if a = 0 ∧ b.num < 0 then
          Except.error (PyExc.mk ExcClass.zeroDivisionError "0.0 cannot be raised to a negative power")
        else Except.ok (a ^ b.num))
      else Except.error (PyExc.mk ExcClass.notModelled "non-integer exponent")
  | PyBOp.bitXor => Option.none

/-- `SafeEval._ok` (source lines 30-32): `isinstance(n, ALLOWED)` and
recursion over the children.  `Constant` has no child nodes; a
`UnaryOp`'s children are its op (`USub`/`UAdd`, both allowed) and its
operand; a `BinOp`'s children are left, op and right; `Name`, `Call`,
`Attribute` and `Subscript` fail the isinstance check immediately
(children unvisited, matching the short-circuit `return False`). -/
def _ok : PyExpr → Bool
  | PyExpr.constant _ => true
  | PyExpr.unaryOp _ e => _ok e
  | PyExpr.binOp l op r => _ok l && ALLOWED_bop op && _ok r
  | _ => false

/-- `SafeEval._eval` (source lines 33-47): bottom-up evaluation.
`float(n.value)` accepts `int`, `float` and (since Python `bool` is a
subclass of `int`) `bool` constants; `None` (and any other constant)
raises `ValueError("Invalid constant")`.  For a `BinOp`, left is
evaluated before right, then the explicit guard `op is ast.Div and
b == 0` raises `ZeroDivisionError("Division by zero")`, then the `OPS`
table dispatches; an operator without an `OPS` entry falls through to
`ValueError("Bad expression")`, as does any non-`Constant`/`UnaryOp`/
`BinOp` node. -/
def _eval : PyExpr → Except PyExc ℚ
  | PyExpr.constant c =>
    match c with
    | PyConst.int n => Except.ok (n : ℚ)
    | PyConst.float q => Except.ok q
    | PyConst.bool b => Except.ok (if b then 1 else 0)
    | PyConst.noneV => Except.error (PyExc.mk ExcClass.valueError "Invalid constant")
  | PyExpr.unaryOp op e => do
    let v ← _eval e
    match op with
    | PyUOp.uSub => Except.ok (-v)
    | PyUOp.uAdd => Except.ok v
  | PyExpr.binOp l op r => do
    let a ← _eval l
    let b ← _eval r
    if op = PyBOp.div ∧ b = 0 then Except.error divByZeroExc
    else
      match OPS op with
      | some f => f a b
      | Option.none => Except.error (PyExc.mk ExcClass.valueError "Bad expression")
  | _ => Except.error (PyExc.mk ExcClass.valueError "Bad expression")

/-- `SafeEval.eval` (source lines 22-29): parse (a `SyntaxError`
becomes `ValueError("Invalid expression")`), run the whitelist check
(failure is `ValueError("Disallowed expression")`), then evaluate the
body. -/
def eval (text : String) : Except PyExc ℚ :=
  match astParse text with
  | Option.none => Except.error invalidExprExc
  | some node =>
    if _ok node then _eval node
    else Except.error disallowedExc

end SafeEval

/-- A `SafeEval` instance.  The Python class defines no `__init__` and
its methods never assign an attribute, so an instance carries no
state. -/
structure SafeEvalObj where

/-- A method call `self.eval(text)` as state transformer: the result
together with the instance state after the call. -/
def SafeEval.evalMethod (self : SafeEvalObj) (text : String) :
    (Except PyExc ℚ) × SafeEvalObj :=
  (SafeEval.eval text, self)

/-- A tree contains a construct outside the whitelist of the spec:
a name lookup, a call, an attribute access or a subscript. -/
def containsDisallowed : PyExpr → Bool
  | PyExpr.constant _ => false
  | PyExpr.unaryOp _ e => containsDisallowed e
  | PyExpr.binOp l _ r => containsDisallowed l || containsDisallowed r
  | PyExpr.name _ => true
  | PyExpr.call _ _ => true
  | PyExpr.attribute _ _ => true
  | PyExpr.subscript _ _ => true

/-- Reference denotation, written from the spec's words (§8): the
value of an arithmetic expression tree "under standard left-to-right /
precedence rules, verified against an independent reference
computation".  Numeric literals and the arithmetic operators receive
their exact mathematical meaning on `ℚ`; an expression with a zero
divisor, a non-integer (or negative-on-zero) exponent, or any
construct outside the arithmetic grammar has no reference value. -/
def refDenote : PyExpr → Option ℚ
  | PyExpr.constant (PyConst.int n) => some (n : ℚ)
  | PyExpr.constant (PyConst.float q) => some q
  | PyExpr.constant _ => Option.none
  | PyExpr.unaryOp PyUOp.uSub e => (refDenote e).map fun v => -v
  | PyExpr.unaryOp PyUOp.uAdd e => refDenote e
  | PyExpr.binOp l op r =>
    match refDenote l, refDenote r with
    | some a, some b =>
      match op with
      | PyBOp.add => some (a + b)
      | PyBOp.sub => some (a - b)
      | PyBOp.mult => some (a * b)
      | PyBOp.div => if b = 0 then Option.none else some (a / b)
      | PyBOp.floorDiv => if b = 0 then Option.none else some ((Rat.floor (a / b) : ℤ) : ℚ)
      | PyBOp.mod => if b = 0 then Option.none else some (a - b * ((Rat.floor (a / b) : ℤ) : ℚ))
      | PyBOp.pow =>
        if b.den = 1 then
          (if a = 0 ∧ b.num < 0 then Option.none else some (a ^ b.num))
        else Option.none
      | PyBOp.bitXor => Option.none
    | _, _ => Option.none
  | _ => Option.none


/-- A tree passing the whitelist check contains no disallowed
construct. -/
theorem ok_no_disallowed : ∀ (t : PyExpr),
    SafeEval._ok t = true → containsDisallowed t = false
  | PyExpr.constant _, _ => rfl
  | PyExpr.unaryOp op e, h => by
    have hrec := ok_no_disallowed e (by simpa [SafeEval._ok] using h)
    simpa [containsDisallowed] using hrec
  | PyExpr.binOp l op r, h => by
    simp [SafeEval._ok, Bool.and_eq_true] at h
    simp [containsDisallowed, ok_no_disallowed l h.1.1, ok_no_disallowed r h.2]
  | PyExpr.name _, h => by simp [SafeEval._ok] at h
  | PyExpr.call _ _, h => by simp [SafeEval._ok] at h
  | PyExpr.attribute _ _, h => by simp [SafeEval._ok] at h
  | PyExpr.subscript _ _, h => by simp [SafeEval._ok] at h

/-- Refinement of the evaluator against the reference denotation: a
tree with a reference value passes the whitelist check, and `_eval`
computes exactly that value. -/
theorem refDenote_ok_eval : ∀ (t : PyExpr) (q : ℚ), refDenote t = some q →
    SafeEval._ok t = true ∧ SafeEval._eval t = Except.ok q
  | PyExpr.constant c, q, h => by
    cases c with
    | int n =>
      simp [refDenote] at h
      exact ⟨rfl, by simp [SafeEval._eval, h]⟩
    | float x =>
      simp [refDenote] at h
      exact ⟨rfl, by simp [SafeEval._eval, h]⟩
    | bool b => simp [refDenote] at h
    | noneV => simp [refDenote] at h
  | PyExpr.name i, q, h => by simp [refDenote] at h
  | PyExpr.unaryOp op e, q, h => by
    cases op with
    | uSub =>
      simp [refDenote, Option.map_eq_some'] at h
      obtain ⟨v, hv, hq⟩ := h
      obtain ⟨hok, he⟩ := refDenote_ok_eval e v hv
      refine ⟨by simpa [SafeEval._ok] using hok, ?_⟩
      simp [SafeEval._eval, he, Bind.bind, Except.bind, hq.symm]
    | uAdd =>
      simp [refDenote] at h
      obtain ⟨hok, he⟩ := refDenote_ok_eval e q h
      refine ⟨by simpa [SafeEval._ok] using hok, ?_⟩
      simp [SafeEval._eval, he, Bind.bind, Except.bind]
  | PyExpr.binOp l op r, q, h => by
    cases hl : refDenote l with
    | none => rw [refDenote] at h; rw [hl] at h; simp at h
    | some a =>
      cases hr : refDenote r with
      | none => rw [refDenote] at h; rw [hl, hr] at h; simp at h
      | some b =>
        obtain ⟨hokl, hel⟩ := refDenote_ok_eval l a hl
        obtain ⟨hokr, her⟩ := refDenote_ok_eval r b hr
        rw [refDenote] at h
        rw [hl, hr] at h
        cases op with
        | add =>
          simp at h
          refine ⟨by simp [SafeEval._ok, SafeEval.ALLOWED_bop, hokl, hokr], ?_⟩
          simp [SafeEval._eval, hel, her, Bind.bind, Except.bind, SafeEval.OPS, h]
        | sub =>
          simp at h
          refine ⟨by simp [SafeEval._ok, SafeEval.ALLOWED_bop, hokl, hokr], ?_⟩
          simp [SafeEval._eval, hel, her, Bind.bind, Except.bind, SafeEval.OPS, h]
        | mult =>
          simp at h
          refine ⟨by simp [SafeEval._ok, SafeEval.ALLOWED_bop, hokl, hokr], ?_⟩
          simp [SafeEval._eval, hel, her, Bind.bind, Except.bind, SafeEval.OPS, h]
        | div =>
          by_cases hb : b = 0
          · simp [hb] at h
          · simp [hb] at h
            refine ⟨by simp [SafeEval._ok, SafeEval.ALLOWED_bop, hokl, hokr], ?_⟩
            simp [SafeEval._eval, hel, her, Bind.bind, Except.bind, SafeEval.OPS, hb, h]
        | floorDiv =>
          by_cases hb : b = 0
          · simp [hb] at h
          · simp [hb] at h
            refine ⟨by simp [SafeEval._ok, SafeEval.ALLOWED_bop, hokl, hokr], ?_⟩
            simp [SafeEval._eval, hel, her, Bind.bind, Except.bind, SafeEval.OPS, hb, h]
        | mod =>
          by_cases hb : b = 0
          · simp [hb] at h
          · simp [hb] at h
            refine ⟨by simp [SafeEval._ok, SafeEval.ALLOWED_bop, hokl, hokr], ?_⟩
            simp [SafeEval._eval, hel, her, Bind.bind, Except.bind, SafeEval.OPS, hb, h]
        | pow =>
          by_cases hd : b.den = 1
          · by_cases hneg : a = 0 ∧ b.num < 0
            · simp [hd, hneg] at h
            · simp [hd, hneg] at h
              refine ⟨by simp [SafeEval._ok, SafeEval.ALLOWED_bop, hokl, hokr], ?_⟩
              simp [SafeEval._eval, hel, her, Bind.bind, Except.bind, SafeEval.OPS, hd, h.2]
              intro ha
              have hnum : ¬ b.num < 0 := fun hlt => hneg ⟨ha, hlt⟩
              exact Rat.num_nonneg.mp (le_of_not_lt hnum)
          · simp [hd] at h
        | bitXor => simp at h
  | PyExpr.call f args, q, h => by simp [refDenote] at h
  | PyExpr.attribute v a, q, h => by simp [refDenote] at h
  | PyExpr.subscript v i, q, h => by simp [refDenote] at h

/-- C1: for every syntactically valid arithmetic string whose parsed
tree has a value under the independent reference computation
(`refDenote`: exact arithmetic with standard precedence and
left-associativity materialised in the parse), `SafeEval.eval`
succeeds and returns exactly that value; in particular
`eval "2+3*4" = 14`, `eval "(2+3)*4" = 20`, `eval "-5+2" = -3`,
`eval "5-2-1" = 2` and `eval "10%3" = 1`. -/
theorem C1_valid_arith_agrees_with_reference :
    (∀ (s : String) (t : PyExpr) (q : ℚ),
        astParse s = some t → refDenote t = some q → SafeEval.eval s = Except.ok q)
  ∧ SafeEval.eval "2+3*4" = Except.ok 14
  ∧ SafeEval.eval "(2+3)*4" = Except.ok 20
  ∧ SafeEval.eval "-5+2" = Except.ok (-3)
  ∧ SafeEval.eval "5-2-1" = Except.ok 2
  ∧ SafeEval.eval "10%3" = Except.ok 1 := by
  refine ⟨?_, ?_, ?_, ?_, ?_, ?_⟩
  · intro s t q hp hd
    obtain ⟨hok, he⟩ := refDenote_ok_eval t q hd
    simp [SafeEval.eval, hp, hok, he]
  all_goals with_unfolding_all rfl

/-- Witness for C1: the general refinement conjunct applied at the
concrete input `"12*(3+4)-5"` and its parse tree. -/
theorem C1_valid_arith_agrees_with_reference_witness :
    SafeEval.eval "12*(3+4)-5" = Except.ok 79 :=
  C1_valid_arith_agrees_with_reference.1 "12*(3+4)-5"
    (PyExpr.binOp
      (PyExpr.binOp (PyExpr.constant (PyConst.int 12)) PyBOp.mult
        (PyExpr.binOp (PyExpr.constant (PyConst.int 3)) PyBOp.add
          (PyExpr.constant (PyConst.int 4))))
      PyBOp.sub (PyExpr.constant (PyConst.int 5)))
    79 (by with_unfolding_all rfl) (by with_unfolding_all rfl)

/-- C2 counterexample: the failure of kind `SyntaxError` (the input
`"("`, rejected by the parser) and the failure of kind
`DisallowedExpressionError` (the input `"x"`, which parses to a `Name`
node that fails the whitelist) are raised with the SAME exception
class `ValueError`, so a caller that does not inspect message text
cannot tell these two kinds apart — refuting the claim that each kind
is distinguishable without message text. -/
theorem C2_counterexample_kinds_share_class :
    astParse "(" = Option.none
  ∧ SafeEval.eval "(" = Except.error SafeEval.invalidExprExc
  ∧ astParse "x" = some (PyExpr.name "x")
  ∧ SafeEval._ok (PyExpr.name "x") = false
  ∧ SafeEval.eval "x" = Except.error SafeEval.disallowedExc
  ∧ SafeEval.invalidExprExc.cls = SafeEval.disallowedExc.cls :=
  ⟨rfl, rfl, rfl, rfl, rfl, rfl⟩

/-- C2 amended: the `DivisionByZeroError` kind is distinguishable by
the caller without inspecting message text (it is raised as the
distinct exception class `ZeroDivisionError`), but the `SyntaxError`
and `DisallowedExpressionError` kinds both surface as the same class
`ValueError` and are distinguishable from each other only by their
message text. -/
theorem C2_amended_only_zero_div_distinguishable :
    SafeEval.eval "1/0" = Except.error SafeEval.divByZeroExc
  ∧ SafeEval.divByZeroExc.cls = ExcClass.zeroDivisionError
  ∧ SafeEval.invalidExprExc.cls = ExcClass.valueError
  ∧ SafeEval.disallowedExc.cls = ExcClass.valueError
  ∧ ExcClass.zeroDivisionError ≠ ExcClass.valueError
  ∧ SafeEval.invalidExprExc.msg ≠ SafeEval.disallowedExc.msg := by
  refine ⟨rfl, rfl, rfl, rfl, by decide, by decide⟩

/-- C3: an input whose parse contains a disallowed construct (a name
lookup, call, attribute access or subscript) fails with the
`DisallowedExpressionError` kind; an unparseable input fails with the
`SyntaxError` kind; and whenever `eval` succeeds the parse succeeded
with a tree free of disallowed constructs — so no such input ever
yields a numeric result.  Concretely: a bare identifier, a call, an
attribute access and a subscript all fail. -/
theorem C3_disallowed_constructs_never_succeed :
    (∀ (s : String) (t : PyExpr),
        astParse s = some t → containsDisallowed t = true →
        SafeEval.eval s = Except.error SafeEval.disallowedExc)
  ∧ (∀ (s : String) (q : ℚ), SafeEval.eval s = Except.ok q →
        ∃ t, astParse s = some t ∧ containsDisallowed t = false)
  ∧ SafeEval.eval "x" = Except.error SafeEval.disallowedExc
  ∧ SafeEval.eval "abs(2)" = Except.error SafeEval.disallowedExc
  ∧ SafeEval.eval "a.b" = Except.error SafeEval.disallowedExc
  ∧ SafeEval.eval "a[0]" = Except.error SafeEval.disallowedExc := by
  refine ⟨?_, ?_, rfl, rfl, rfl, rfl⟩
  · intro s t hp hd
    have hok : SafeEval._ok t = false := by
      cases hok : SafeEval._ok t with
      | false => rfl
      | true => rw [ok_no_disallowed t hok] at hd; exact absurd hd (by simp)
    simp [SafeEval.eval, hp, hok]
  · intro s q h
    cases hp : astParse s with
    | none => simp [SafeEval.eval, hp] at h
    | some t =>
      cases hok : SafeEval._ok t with
      | false => simp [SafeEval.eval, hp, hok] at h
      | true => exact ⟨t, rfl, ok_no_disallowed t hok⟩

/-- Witness for C3: the first conjunct applied at the concrete input
`"y"`, whose parse tree is the disallowed `Name` node. -/
theorem C3_disallowed_constructs_never_succeed_witness :
    SafeEval.eval "y" = Except.error SafeEval.disallowedExc :=
  C3_disallowed_constructs_never_succeed.1 "y" (PyExpr.name "y") rfl rfl

/-- C4: a true division whose divisor is exactly zero fails with the
`DivisionByZeroError` kind whatever the literal form of the zero
(`1/0` and `1/0.0`), and that kind is distinct from the generic
`ValueError` class the other failures use. -/
theorem C4_div_by_zero_same_kind_any_literal_form :
    SafeEval.eval "1/0" = Except.error SafeEval.divByZeroExc
  ∧ SafeEval.eval "1/0.0" = Except.error SafeEval.divByZeroExc
  ∧ SafeEval.divByZeroExc.cls ≠ ExcClass.valueError := by
  refine ⟨rfl, by with_unfolding_all rfl, by decide⟩

/-- C5: exponentiation is right-associative and unary minus binds less
tightly than `**`: `2 ** 3 ** 2 = 2 ** (3 ** 2) = 512` and
`-2 ** 2 = -(2 ** 2) = -4`. -/
theorem C5_pow_right_assoc_unary_minus_below_pow :
    SafeEval.eval "2 ** 3 ** 2" = Except.ok 512
  ∧ SafeEval.eval "-2 ** 2" = Except.ok (-4) := by
  refine ⟨by with_unfolding_all rfl, by with_unfolding_all rfl⟩

/-- C7: every non-conforming input fails with the `SyntaxError` kind
(the parse fails and `eval` raises `ValueError("Invalid expression")`):
the empty string, `"("`, `")("`, `"1+"`, and a bare `"-"` or `"+"`. -/
theorem C7_nonconforming_inputs_syntax_kind :
    astParse "" = Option.none
  ∧ SafeEval.eval "" = Except.error SafeEval.invalidExprExc
  ∧ SafeEval.eval "(" = Except.error SafeEval.invalidExprExc
  ∧ astParse ")(" = Option.none
  ∧ SafeEval.eval ")(" = Except.error SafeEval.invalidExprExc
  ∧ astParse "1+" = Option.none
  ∧ SafeEval.eval "1+" = Except.error SafeEval.invalidExprExc
  ∧ astParse "-" = Option.none
  ∧ SafeEval.eval "-" = Except.error SafeEval.invalidExprExc
  ∧ astParse "+" = Option.none
  ∧ SafeEval.eval "+" = Except.error SafeEval.invalidExprExc :=
  ⟨rfl, rfl, rfl, rfl, rfl, rfl, rfl, rfl, rfl, rfl, rfl⟩

/-- C8: `SafeEval.eval` is deterministic and stateless: a method call
leaves the instance state unchanged (the class has no mutable
attributes), and calling again with the same string on the resulting
state yields the same outcome — same numeric result or same failure. -/
theorem C8_deterministic_and_stateless (self : SafeEvalObj) (s : String) :
    (SafeEval.evalMethod self s).2 = self
  ∧ (SafeEval.evalMethod self s).1 =
      (SafeEval.evalMethod ((SafeEval.evalMethod self s).2) s).1 :=
  ⟨rfl, rfl⟩

/-- C9: floor-division and modulo with a zero divisor fail with the
same `ZeroDivisionError` class as true division, though with the
messages of the underlying arithmetic rather than the explicit `Div`
guard's message. -/
theorem C9_floordiv_mod_zero_divisor_same_class :
    SafeEval.eval "1//0" =
      Except.error (PyExc.mk ExcClass.zeroDivisionError "float floor division by zero")
  ∧ SafeEval.eval "1%0" =
      Except.error (PyExc.mk ExcClass.zeroDivisionError "float modulo")
  ∧ SafeEval.eval "1/0" = Except.error SafeEval.divByZeroExc
  ∧ (PyExc.mk ExcClass.zeroDivisionError "float floor division by zero").cls
      = SafeEval.divByZeroExc.cls
  ∧ (PyExc.mk ExcClass.zeroDivisionError "float modulo").cls
      = SafeEval.divByZeroExc.cls :=
  ⟨rfl, rfl, rfl, rfl, rfl⟩

/-- C10: `True` and `False` parse as `Constant` nodes, pass the
whitelist check, and evaluate as numbers (Python `bool` is a subclass
of `int`): `eval "True" = 1.0` and `eval "False" = 0.0`, although
neither input contains a digit. -/
theorem C10_bool_keywords_evaluate_numerically :
    astParse "True" = some (PyExpr.constant (PyConst.bool true))
  ∧ astParse "False" = some (PyExpr.constant (PyConst.bool false))
  ∧ SafeEval._ok (PyExpr.constant (PyConst.bool true)) = true
  ∧ SafeEval._ok (PyExpr.constant (PyConst.bool false)) = true
  ∧ SafeEval.eval "True" = Except.ok 1
  ∧ SafeEval.eval "False" = Except.ok 0
  ∧ "True".data.all (fun c => !c.isDigit) = true
  ∧ "False".data.all (fun c => !c.isDigit) = true := by
  refine ⟨rfl, rfl, rfl, rfl, rfl, rfl, by decide, by decide⟩
